import Mathlib

/-!
Verification development for the CulinaryLens resilience layer and
confidence-fusion engine.

The embedding follows the source in `services/geminiService.ts` (the current
service module), the stale service copy kept in the repository (referred to
below as the legacy module), and the confidence-fusion function
`calculateCompositeConfidence`.  JavaScript numbers are modelled as exact
rationals extended with a NaN point (`JSNum`); the asynchronous remote call is
modelled as an oracle `Nat → Outcome T` giving the outcome of the k-th
attempt; the module-level mutable `sessionForceOffline` flag is threaded
explicitly through a `SessionState` record.
-/

/-- Character-list test that `pat` is a prefix of the second list; building
block for the substring test below. -/
def isPrefixChars : List Char → List Char → Bool
  | [], _ => true
  | _ :: _, [] => false
  | p :: ps, c :: cs => p == c && isPrefixChars ps cs

/-- Character-list substring occurrence test. -/
def hasSubChars (pat : List Char) : List Char → Bool
  | [] => pat.isEmpty
  | c :: rest => isPrefixChars pat (c :: rest) || hasSubChars pat rest

/-- Models JavaScript `s.includes(pat)`. -/
def containsSub (s pat : String) : Bool :=
  hasSubChars pat.data s.data

/-- Models JavaScript `s.toLowerCase()`; the strings handled by the verified
functions are ASCII, where the two agree. -/
def strLower (s : String) : String :=
  ⟨s.data.map Char.toLower⟩

/-- Error classifier from `withRetry`:
`errorMsg.toLowerCase().includes(quota) || errorMsg.includes(429) ||
errorMsg.includes(RESOURCE_EXHAUSTED)`. -/
def isQuotaExceeded (errorMsg : String) : Bool :=
  containsSub (strLower errorMsg) "quota" || containsSub errorMsg "429" ||
    containsSub errorMsg "RESOURCE_EXHAUSTED"

/-- Error classifier from `withRetry`:
`isQuotaExceeded || errorMsg.includes(500) || errorMsg.includes(fetch)`. -/
def isTransient (errorMsg : String) : Bool :=
  isQuotaExceeded errorMsg || containsSub errorMsg "500" || containsSub errorMsg "fetch"

/-- Error classifier from `withImageRetry`:
`errorMsg.includes(500) || errorMsg.includes(fetch) || errorMsg.includes(timeout)`. -/
def isImageTransient (errorMsg : String) : Bool :=
  containsSub errorMsg "500" || containsSub errorMsg "fetch" || containsSub errorMsg "timeout"

/-- Outcome of one invocation of the wrapped remote attempt: either a value or
a thrown error carrying its message string. -/
inductive Outcome (T : Type) where
  | ok (value : T)
  | err (msg : String)
deriving DecidableEq

deriving instance DecidableEq for Except

/-- Observable run of the critical wrapper `withRetry`: the final value of the
module flag `sessionForceOffline`, the returned or thrown result, the number
of invocations of the wrapped attempt, and the list of backoff delays slept. -/
structure RetryRun (T : Type) where
  latch : Bool
  result : Except String T
  calls : Nat
  sleeps : List ℚ
deriving DecidableEq

/-- The critical-path wrapper `withRetry` of `services/geminiService.ts`
(lines 31 to 54; the legacy module contains a behaviourally identical copy,
differing only in debug logging).  `sfo` is the value of the module flag
`sessionForceOffline` on entry, `k` indexes the attempts of the oracle `fn`.
The source defaults are `retries = 3`, `delay = 2000`. -/
def withRetry {T : Type} (fn : Nat → Outcome T) (sfo : Bool) (retries : Nat)
    (delay : ℚ) (k : Nat) : RetryRun T :=
  if sfo then ⟨sfo, Except.error "SESSION_OFFLINE_FAILOVER", 0, []⟩
  else
    match fn k with
    | Outcome.ok v => ⟨sfo, Except.ok v, 1, []⟩
    | Outcome.err msg =>
      if isQuotaExceeded msg then
        ⟨true, Except.error msg, 1, []⟩
      else if isTransient msg then
        match retries with
        | 0 => ⟨sfo, Except.error msg, 1, []⟩
        | r + 1 =>
          let rest := withRetry fn sfo r (delay * 2) (k + 1)
          ⟨rest.latch, rest.result, rest.calls + 1, delay :: rest.sleeps⟩
      else ⟨sfo, Except.error msg, 1, []⟩

/-- Observable run of the image wrapper `withImageRetry`; it has no latch
component because the source function never reads or writes
`sessionForceOffline`. -/
structure ImageRun (T : Type) where
  result : Except String T
  calls : Nat
  sleeps : List ℚ
deriving DecidableEq

/-- The asset-path wrapper `withImageRetry` of `services/geminiService.ts`
(lines 60 to 74).  The source defaults are `retries = 2`, `delay = 1000`, and
the backoff multiplier is 1.5. -/
def withImageRetry {T : Type} (fn : Nat → Outcome T) (retries : Nat)
    (delay : ℚ) (k : Nat) : ImageRun T :=
  match fn k with
  | Outcome.ok v => ⟨Except.ok v, 1, []⟩
  | Outcome.err msg =>
    if isImageTransient msg then
      match retries with
      | 0 => ⟨Except.error msg, 1, []⟩
      | r + 1 =>
        let rest := withImageRetry fn r (delay * 1.5) (k + 1)
        ⟨rest.result, rest.calls + 1, delay :: rest.sleeps⟩
    else ⟨Except.error msg, 1, []⟩

/-- Session-scoped environment of the service module: the mutable failover
flag `sessionForceOffline`, the browser reachability bit `navigator.onLine`,
and the two credential sources (`VITE_GEMINI_API_KEY` and the localStorage
entry), each possibly absent. -/
structure SessionState where
  sessionForceOffline : Bool
  navigatorOnLine : Bool
  envKey : Option String
  storedKey : Option String
deriving DecidableEq

/-- Constant `ERROR_MESSAGES.API_KEY_NOT_CONFIGURED` from the shared
constants module. -/
def API_KEY_NOT_CONFIGURED : String := "Gemini API key not configured"

/-- JavaScript truthiness of an optional string: `undefined` and the empty
string are falsy. -/
def strTruthy : Option String → Bool
  | none => false
  | some s => s != ""

/-- `resolveGeminiApiKey` (lines 80 to 91): environment key first, then the
stored key, otherwise throw. -/
def resolveGeminiApiKey (s : SessionState) : Except String String :=
  if strTruthy s.envKey then Except.ok (s.envKey.getD "")
  else if strTruthy s.storedKey then Except.ok (s.storedKey.getD "")
  else Except.error (API_KEY_NOT_CONFIGURED ++ ". Please add your API key in Settings.")

/-- Derived predicate: a usable credential resolves without throwing. -/
def credentialPresent (s : SessionState) : Bool :=
  match resolveGeminiApiKey s with
  | Except.ok _ => true
  | Except.error _ => false

/-- `checkOnlineStatus` (lines 106 to 114): false when latched; otherwise
`navigator.onLine && !!resolveGeminiApiKey()`, with any throw caught and
converted to false.  The source function performs no writes, so the model is
a plain function of the state. -/
def checkOnlineStatus (s : SessionState) : Bool :=
  if s.sessionForceOffline then false
  else
    match resolveGeminiApiKey s with
    | Except.ok key => s.navigatorOnLine && (key != "")
    | Except.error _ => false

/-- `resetHandshake` (lines 119 to 122): clears the failover flag; the only
other statement in the source is debug logging. -/
def resetHandshake (s : SessionState) : SessionState :=
  { s with sessionForceOffline := false }

/-- Verification status of a perceived ingredient (types module). -/
inductive VerificationStatus where
  | unverified
  | confirmed
  | dismissed
deriving DecidableEq

/-- Ingredient record (types module), restricted to the fields the verified
functions read. -/
structure Ingredient where
  id : String
  name : String
  category : String
  confidence : ℚ
  verificationStatus : Option VerificationStatus
deriving DecidableEq

/-- One instruction step of a protocol (types module). -/
structure ProtocolStep where
  order : Nat
  instruction : String
deriving DecidableEq

/-- The synthesized recipe artifact (types module), restricted to the fields
the verified functions read. -/
structure NeuralProtocol where
  id : String
  title : String
  description : String
  instructions : List ProtocolStep
  ingredients_used : List String
  isOffline : Bool
deriving DecidableEq

/-- Hypothesis produced by the semantic recall audit (types module). -/
structure RecallHypothesis where
  name : String
  justification : String
  visualHint : String
  confidence : ℚ
deriving DecidableEq

/-- User preferences (types module), restricted to the fields the verified
functions read. -/
structure UserPreferences where
  dietary : String
  allergies : List String
  cuisinePreference : String
deriving DecidableEq

/-- JavaScript number as used by `calculateCompositeConfidence`: an exact
rational or NaN. -/
inductive JSNum where
  | num (val : ℚ)
  | nan
deriving DecidableEq

/-- JavaScript addition; NaN propagates. -/
def jsAdd : JSNum → JSNum → JSNum
  | JSNum.num a, JSNum.num b => JSNum.num (a + b)
  | _, _ => JSNum.nan

/-- JavaScript subtraction; NaN propagates. -/
def jsSub : JSNum → JSNum → JSNum
  | JSNum.num a, JSNum.num b => JSNum.num (a - b)
  | _, _ => JSNum.nan

/-- JavaScript multiplication; NaN propagates. -/
def jsMul : JSNum → JSNum → JSNum
  | JSNum.num a, JSNum.num b => JSNum.num (a * b)
  | _, _ => JSNum.nan

/-- JavaScript division.  A zero denominator is modelled as NaN: at both
division sites of `calculateCompositeConfidence` the numerator is zero
whenever the denominator is zero (an average of a list over its length and a
filtered count over the full count), and JavaScript evaluates `0 / 0` to
NaN. -/
def jsDiv : JSNum → JSNum → JSNum
  | JSNum.num a, JSNum.num b => if b = 0 then JSNum.nan else JSNum.num (a / b)
  | _, _ => JSNum.nan

/-- JavaScript `Math.max`; returns NaN when an argument is NaN. -/
def jsMax : JSNum → JSNum → JSNum
  | JSNum.num a, JSNum.num b => JSNum.num (max a b)
  | _, _ => JSNum.nan

/-- JavaScript `Math.round`: half-up toward positive infinity; NaN maps to
NaN. -/
def jsRound : JSNum → JSNum
  | JSNum.num a => JSNum.num ((⌊a + 1 / 2⌋ : ℤ) : ℚ)
  | JSNum.nan => JSNum.nan

/-- JavaScript `x || y` on numbers: 0 and NaN are falsy. -/
def jsOrElse : JSNum → JSNum → JSNum
  | JSNum.num a, fallback => if a = 0 then fallback else JSNum.num a
  | JSNum.nan, fallback => fallback

/-- Models `(memory[key] || 0)`: lookup in the confirmation-memory object
read from stored preferences, with 0 for a missing entry. -/
def memLookup (memory : List (String × ℚ)) (key : String) : ℚ :=
  (memory.lookup key).getD 0

/-- Body of the `reduce` arrow function inside `calculateCompositeConfidence`:
confirmed items are raised to at least 0.85, the memory bias is
`min(memory[name.toLowerCase()] * 0.02, 0.10)`, and the per-item contribution
is capped at 1.0. -/
def perceptionStep (memory : List (String × ℚ)) (acc : ℚ) (curr : Ingredient) : ℚ :=
  let score := curr.confidence
  let score2 := if curr.verificationStatus = some VerificationStatus.confirmed
    then max score 0.85 else score
  let bias := min (memLookup memory (strLower curr.name) * 0.02) 0.10
  acc + min (score2 + bias) 1.0

/-- The `reduce(..., 0)` accumulation inside `calculateCompositeConfidence`. -/
def perceptionSum (memory : List (String × ℚ)) (mlInventory : List Ingredient) : ℚ :=
  mlInventory.foldl (perceptionStep memory) 0

/-- The perception term `mlConfidence` of `calculateCompositeConfidence`:
`reduce(...) / mlInventory.length || 1`.  The `|| 1` applies both to the NaN
produced by an empty list and to a computed average equal to 0. -/
def mlConfidenceTerm (memory : List (String × ℚ)) (mlInventory : List Ingredient) : JSNum :=
  jsOrElse
    (jsDiv (JSNum.num (perceptionSum memory mlInventory)) (JSNum.num mlInventory.length))
    (JSNum.num 1)

/-- The coherence term `geminiCoherence`: 1.0 when the protocol has more than
3 instruction steps, else 0.7. -/
def geminiCoherenceTerm (protocol : NeuralProtocol) : ℚ :=
  if protocol.instructions.length > 3 then 1.0 else 0.7

/-- The constraint-satisfaction term `constraintSatisfaction`:
`Math.max(0, 1 - hallucinations / protocol.ingredients_used.length)` where
`hallucinations` counts referenced ingredients absent from the perceived set
(case-insensitive). -/
def constraintTerm (mlInventory : List Ingredient) (protocol : NeuralProtocol) : JSNum :=
  let mlNames := mlInventory.map (fun i => strLower i.name)
  let hallucinations :=
    (protocol.ingredients_used.filter (fun ing => !(mlNames.contains (strLower ing)))).length
  jsMax (JSNum.num 0)
    (jsSub (JSNum.num 1)
      (jsDiv (JSNum.num hallucinations) (JSNum.num protocol.ingredients_used.length)))

/-- `calculateCompositeConfidence` of the fusion module:
`Math.round(((0.5 * mlConfidence) + (0.3 * geminiCoherence) +
(0.2 * constraintSatisfaction)) * 100)`.  The confirmation memory that the
source reads from localStorage preferences is passed explicitly. -/
def calculateCompositeConfidence (mlInventory : List Ingredient)
    (protocol : NeuralProtocol) (memory : List (String × ℚ)) : JSNum :=
  let composite := jsAdd
    (jsAdd (jsMul (JSNum.num 0.5) (mlConfidenceTerm memory mlInventory))
      (jsMul (JSNum.num 0.3) (JSNum.num (geminiCoherenceTerm protocol))))
    (jsMul (JSNum.num 0.2) (constraintTerm mlInventory protocol))
  jsRound (jsMul composite (JSNum.num 100))

/-- Specification-side perception term following the plain averaging formula:
the empty set yields 1.0 by the stated convention, and a computed average is
returned unchanged (no replacement of a zero average).  Used only as the
comparison point for the claim about the `|| 1` fallback of the source. -/
def mlConfidenceTermAveraged (memory : List (String × ℚ))
    (mlInventory : List Ingredient) : ℚ :=
  if mlInventory.length = 0 then 1
  else perceptionSum memory mlInventory / mlInventory.length

/-- The composite score recomputed with the specification-side averaging
perception term; the other two terms are exactly those of the source. -/
def calculateCompositeConfidenceAveraged (mlInventory : List Ingredient)
    (protocol : NeuralProtocol) (memory : List (String × ℚ)) : JSNum :=
  let composite := jsAdd
    (jsAdd (jsMul (JSNum.num 0.5) (JSNum.num (mlConfidenceTermAveraged memory mlInventory)))
      (jsMul (JSNum.num 0.3) (JSNum.num (geminiCoherenceTerm protocol))))
    (jsMul (JSNum.num 0.2) (constraintTerm mlInventory protocol))
  jsRound (jsMul composite (JSNum.num 100))

/-- Modelled from the spec: `synthesizeOfflineProtocol` lives in
`services/offlineService`, which is absent from the provided sources.  Per the
spec it is the never-failing local fallback generator and the protocol it
produces records offline provenance with `isOffline = true`. -/
def synthesizeOfflineProtocol (ingredients : List Ingredient)
    (preferences : UserPreferences) : NeuralProtocol :=
  { id := "edge"
    title := "Edge Protocol"
    description := "Sovereign edge-computed protocol for " ++ preferences.cuisinePreference
    instructions := []
    ingredients_used := ingredients.map (fun i => i.name)
    isOffline := true }

/-- Modelled from the spec: `fuseResults` lives in `fusion/pipeline`, which is
absent from the provided sources; the spec treats it as the step that merges
perception results into the synthesized protocol artifact.  No verified claim
constrains its output, so it is modelled as returning the protocol. -/
def fuseResults (ingredients : List Ingredient) (protocol : NeuralProtocol) : NeuralProtocol :=
  protocol

/-- `synthesizeProtocol` (lines 154 to 186).  The oracle yields the parsed
raw protocol of a successful response (fresh id assignment and grounding
extraction are folded into the oracle payload); the source then clears its
`isOffline` flag and fuses it with the perceived ingredients.  Any caught
failure falls back to the offline generator. -/
def synthesizeProtocol (s : SessionState) (remote : Nat → Outcome NeuralProtocol)
    (ingredients : List Ingredient) (preferences : UserPreferences) :
    SessionState × NeuralProtocol :=
  if checkOnlineStatus s = false then (s, synthesizeOfflineProtocol ingredients preferences)
  else
    match resolveGeminiApiKey s with
    | Except.error _ => (s, synthesizeOfflineProtocol ingredients preferences)
    | Except.ok _ =>
      let run := withRetry remote s.sessionForceOffline 3 2000 0
      let s2 := { s with sessionForceOffline := run.latch }
      match run.result with
      | Except.ok raw => (s2, fuseResults ingredients { raw with isOffline := false })
      | Except.error _ => (s2, synthesizeOfflineProtocol ingredients preferences)

/-- `auditRecall` (lines 191 to 221).  The oracle yields the parsed hypothesis
list of a successful response; any caught failure yields the empty list. -/
def auditRecall (s : SessionState) (remote : Nat → Outcome (List RecallHypothesis))
    (ingredients : List Ingredient) : SessionState × List RecallHypothesis :=
  if checkOnlineStatus s = false then (s, [])
  else
    match resolveGeminiApiKey s with
    | Except.error _ => (s, [])
    | Except.ok _ =>
      let run := withRetry remote s.sessionForceOffline 3 2000 0
      let s2 := { s with sessionForceOffline := run.latch }
      match run.result with
      | Except.ok hyps => (s2, hyps)
      | Except.error _ => (s2, [])

/-- `refineManifestWithEnsemble` (lines 226 to 261).  The oracle yields the
parsed refined list of a successful response; any caught failure returns the
input list unchanged. -/
def refineManifestWithEnsemble (s : SessionState)
    (remote : Nat → Outcome (List Ingredient)) (ingredients : List Ingredient) :
    SessionState × List Ingredient :=
  if checkOnlineStatus s = false then (s, ingredients)
  else
    match resolveGeminiApiKey s with
    | Except.error _ => (s, ingredients)
    | Except.ok _ =>
      let run := withRetry remote s.sessionForceOffline 3 2000 0
      let s2 := { s with sessionForceOffline := run.latch }
      match run.result with
      | Except.ok refined => (s2, refined)
      | Except.error _ => (s2, ingredients)

/-- `generatePlatingVisual` (lines 302 to 320): asset path through
`withImageRetry`; the oracle payload is the inline image data found in the
response parts, if any.  No branch writes the session state. -/
def generatePlatingVisual (s : SessionState) (remote : Nat → Outcome (Option String))
    (protocol : NeuralProtocol) : SessionState × String :=
  if checkOnlineStatus s = false then (s, "")
  else
    match resolveGeminiApiKey s with
    | Except.error _ => (s, "")
    | Except.ok _ =>
      match (withImageRetry remote 2 1000 0).result with
      | Except.ok (some data) => (s, "data:image/png;base64," ++ data)
      | Except.ok none => (s, "")
      | Except.error _ => (s, "")

/-- `generateDrinkVisual` (lines 322 to 339): same shape as the plating
asset call. -/
def generateDrinkVisual (s : SessionState) (remote : Nat → Outcome (Option String))
    (drinkName : String) : SessionState × String :=
  if checkOnlineStatus s = false then (s, "")
  else
    match resolveGeminiApiKey s with
    | Except.error _ => (s, "")
    | Except.ok _ =>
      match (withImageRetry remote 2 1000 0).result with
      | Except.ok (some data) => (s, "data:image/png;base64," ++ data)
      | Except.ok none => (s, "")
      | Except.error _ => (s, "")

/-- `generateIngredientVisual` (lines 341 to 358): same shape as the plating
asset call. -/
def generateIngredientVisual (s : SessionState) (remote : Nat → Outcome (Option String))
    (ingredientName : String) : SessionState × String :=
  if checkOnlineStatus s = false then (s, "")
  else
    match resolveGeminiApiKey s with
    | Except.error _ => (s, "")
    | Except.ok _ =>
      match (withImageRetry remote 2 1000 0).result with
      | Except.ok (some data) => (s, "data:image/png;base64," ++ data)
      | Except.ok none => (s, "")
      | Except.error _ => (s, "")

/-- `generateSchematic` (lines 360 to 377): same shape as the plating asset
call. -/
def generateSchematic (s : SessionState) (remote : Nat → Outcome (Option String))
    (protocol : NeuralProtocol) : SessionState × String :=
  if checkOnlineStatus s = false then (s, "")
  else
    match resolveGeminiApiKey s with
    | Except.error _ => (s, "")
    | Except.ok _ =>
      match (withImageRetry remote 2 1000 0).result with
      | Except.ok (some data) => (s, "data:image/png;base64," ++ data)
      | Except.ok none => (s, "")
      | Except.error _ => (s, "")

namespace Legacy

/-- `generatePlatingVisual` of the stale service copy kept in the repository
(lines 263 to 278 of that file): it routes the image call through the
latch-setting critical wrapper `withRetry` instead of `withImageRetry`, so a
quota-classified failure writes the module flag. -/
def generatePlatingVisual (s : SessionState) (remote : Nat → Outcome (Option String))
    (protocol : NeuralProtocol) : SessionState × String :=
  if checkOnlineStatus s = false then (s, "")
  else
    match resolveGeminiApiKey s with
    | Except.error _ => (s, "")
    | Except.ok _ =>
      let run := withRetry remote s.sessionForceOffline 3 2000 0
      let s2 := { s with sessionForceOffline := run.latch }
      match run.result with
      | Except.ok (some data) => (s2, "data:image/png;base64," ++ data)
      | Except.ok none => (s2, "")
      | Except.error _ => (s2, "")

end Legacy

/-- Concrete session fixture: online, credentialed, latch clear. -/
def sessionStart : SessionState := ⟨false, true, some "env-key", none⟩

/-- Concrete session fixture: latch already set. -/
def sessionLatched : SessionState := ⟨true, true, some "env-key", none⟩

/-- Concrete session fixture: no network and no credential. -/
def sessionOffline : SessionState := ⟨false, false, none, none⟩

/-- Concrete preferences fixture. -/
def defaultPrefs : UserPreferences := ⟨"None", [], "Global Modern"⟩

/-- Concrete ingredient fixture used by the scoring scenarios. -/
def tomatoIngredient : Ingredient :=
  ⟨"ing-1", "tomato", "produce", 0.6, some VerificationStatus.unverified⟩

/-- Concrete ingredient fixture with perception confidence 0. -/
def zeroIngredient : Ingredient :=
  ⟨"ing-0", "zucchini", "produce", 0, some VerificationStatus.unverified⟩

/-- Protocol fixture with five instruction steps referencing only tomato. -/
def protoFive : NeuralProtocol :=
  ⟨"p5", "Tomato Tasting", "five-step protocol",
    [⟨1, "wash"⟩, ⟨2, "slice"⟩, ⟨3, "season"⟩, ⟨4, "sear"⟩, ⟨5, "plate"⟩],
    ["tomato"], false⟩

/-- Protocol fixture with three instruction steps referencing only tomato. -/
def protoThree : NeuralProtocol :=
  ⟨"p3", "Tomato Sketch", "three-step protocol",
    [⟨1, "wash"⟩, ⟨2, "slice"⟩, ⟨3, "plate"⟩],
    ["tomato"], false⟩

/-- Protocol fixture whose referenced-ingredient list is empty. -/
def protoNoRefs : NeuralProtocol :=
  ⟨"p0", "Empty Refs", "no referenced ingredients",
    [⟨1, "wash"⟩, ⟨2, "slice"⟩, ⟨3, "season"⟩, ⟨4, "plate"⟩],
    [], false⟩

/-- Protocol fixture with five instruction steps referencing only zucchini. -/
def protoFiveZ : NeuralProtocol :=
  ⟨"pz", "Zucchini Study", "five-step protocol",
    [⟨1, "wash"⟩, ⟨2, "slice"⟩, ⟨3, "season"⟩, ⟨4, "sear"⟩, ⟨5, "plate"⟩],
    ["zucchini"], false⟩

/-- Remote oracle that always throws a quota error (image payload type). -/
def quotaImageRemote : Nat → Outcome (Option String) :=
  fun _ => Outcome.err "429 RESOURCE_EXHAUSTED: quota exceeded"

/-- Remote oracle that always throws a quota error (hypothesis payload type). -/
def quotaHypRemote : Nat → Outcome (List RecallHypothesis) :=
  fun _ => Outcome.err "429 RESOURCE_EXHAUSTED: quota exceeded"

/-- Remote oracle that always throws a server error (hypothesis payload type). -/
def err500HypRemote : Nat → Outcome (List RecallHypothesis) :=
  fun _ => Outcome.err "500 internal server error"

/-- Remote oracle that always throws a quota error (ingredient payload type). -/
def quotaIngRemote : Nat → Outcome (List Ingredient) :=
  fun _ => Outcome.err "429 RESOURCE_EXHAUSTED: quota exceeded"

/-- Remote oracle that always throws a server error (ingredient payload type). -/
def err500IngRemote : Nat → Outcome (List Ingredient) :=
  fun _ => Outcome.err "500 internal server error"

/-- Remote oracle that always throws a quota error (protocol payload type). -/
def quotaProtocolRemote : Nat → Outcome NeuralProtocol :=
  fun _ => Outcome.err "429 RESOURCE_EXHAUSTED: quota exceeded"

/-- The two verification-status constructors compared by the scoring function
are distinct. -/
theorem vstatus_ne :
    (VerificationStatus.unverified = VerificationStatus.confirmed) = False := by
  decide

/-- When the latch is set on entry, the critical wrapper fails fast with zero
attempts. -/
theorem withRetry_latched {T : Type} (fn : Nat → Outcome T) (retries : Nat) (delay : ℚ)
    (k : Nat) :
    withRetry fn true retries delay k
      = ⟨true, Except.error "SESSION_OFFLINE_FAILOVER", 0, []⟩ := by
  unfold withRetry
  simp

/-- A successful attempt returns its value after exactly one call. -/
theorem withRetry_ok {T : Type} (fn : Nat → Outcome T) (retries : Nat) (delay : ℚ)
    (k : Nat) (v : T) (hfn : fn k = Outcome.ok v) :
    withRetry fn false retries delay k = ⟨false, Except.ok v, 1, []⟩ := by
  unfold withRetry
  simp [hfn]

/-- A quota-classified failure sets the latch, does not retry, and propagates
the original error. -/
theorem withRetry_quota {T : Type} (fn : Nat → Outcome T) (retries : Nat) (delay : ℚ)
    (k : Nat) (m : String) (hfn : fn k = Outcome.err m) (hq : isQuotaExceeded m = true) :
    withRetry fn false retries delay k = ⟨true, Except.error m, 1, []⟩ := by
  unfold withRetry
  simp [hfn, hq]

/-- A transient non-quota failure with attempts remaining sleeps for the
current delay, doubles the delay, decrements the budget, and retries. -/
theorem withRetry_transientStep {T : Type} (fn : Nat → Outcome T) (r : Nat) (delay : ℚ)
    (k : Nat) (m : String) (hfn : fn k = Outcome.err m) (hq : isQuotaExceeded m = false)
    (ht : isTransient m = true) :
    withRetry fn false (r + 1) delay k
      = ⟨(withRetry fn false r (delay * 2) (k + 1)).latch,
         (withRetry fn false r (delay * 2) (k + 1)).result,
         (withRetry fn false r (delay * 2) (k + 1)).calls + 1,
         delay :: (withRetry fn false r (delay * 2) (k + 1)).sleeps⟩ := by
  conv_lhs => rw [withRetry]
  simp [hfn, hq, ht]

/-- A transient non-quota failure with no attempts remaining propagates after
one call. -/
theorem withRetry_noRetryLeft {T : Type} (fn : Nat → Outcome T) (delay : ℚ)
    (k : Nat) (m : String) (hfn : fn k = Outcome.err m) (hq : isQuotaExceeded m = false) :
    withRetry fn false 0 delay k = ⟨false, Except.error m, 1, []⟩ := by
  unfold withRetry
  simp [hfn, hq]

/-- A non-transient failure propagates immediately after one call. -/
theorem withRetry_permanent {T : Type} (fn : Nat → Outcome T) (retries : Nat) (delay : ℚ)
    (k : Nat) (m : String) (hfn : fn k = Outcome.err m) (ht : isTransient m = false) :
    withRetry fn false retries delay k = ⟨false, Except.error m, 1, []⟩ := by
  have hq : isQuotaExceeded m = false := by
    unfold isTransient at ht
    rcases Bool.or_eq_false_iff.mp ht with ⟨h1, _⟩
    exact (Bool.or_eq_false_iff.mp h1).1
  unfold withRetry
  simp [hfn, hq, ht]

/-- The critical wrapper leaves the latch unchanged on every run whose
attempted outcomes contain no quota-classified error. -/
theorem withRetry_latch_of_no_quota {T : Type} :
    ∀ (retries : Nat) (fn : Nat → Outcome T) (sfo : Bool) (delay : ℚ) (k : Nat),
      (∀ j m, fn j = Outcome.err m → isQuotaExceeded m = false) →
      (withRetry fn sfo retries delay k).latch = sfo := by
  intro retries
  induction retries with
  | zero =>
    intro fn sfo delay k h
    unfold withRetry
    cases sfo
    · cases hfk : fn k with
      | ok v => simp [hfk]
      | err m =>
        have hq := h k m hfk
        simp [hfk, hq]
    · simp
  | succ n ih =>
    intro fn sfo delay k h
    unfold withRetry
    cases sfo
    · cases hfk : fn k with
      | ok v => simp [hfk]
      | err m =>
        have hq := h k m hfk
        simp [hfk, hq]
        split
        · exact ih fn false (delay * 2) (k + 1) h
        · rfl
    · simp

/-- Closed form of the health check: latch clear, network up, and a
credential present. -/
theorem checkOnlineStatus_eq (s : SessionState) :
    checkOnlineStatus s
      = (!s.sessionForceOffline && (s.navigatorOnLine && credentialPresent s)) := by
  rcases s with ⟨sfo, nav, envKey, storedKey⟩
  cases sfo
  · cases envKey with
    | none =>
      cases storedKey with
      | none => simp [checkOnlineStatus, credentialPresent, resolveGeminiApiKey, strTruthy]
      | some b =>
        by_cases hb : b = "" <;>
          simp [checkOnlineStatus, credentialPresent, resolveGeminiApiKey, strTruthy, hb]
    | some a =>
      by_cases ha : a = ""
      · cases storedKey with
        | none =>
          simp [checkOnlineStatus, credentialPresent, resolveGeminiApiKey, strTruthy, ha]
        | some b =>
          by_cases hb : b = "" <;>
            simp [checkOnlineStatus, credentialPresent, resolveGeminiApiKey, strTruthy, ha, hb]
      · simp [checkOnlineStatus, credentialPresent, resolveGeminiApiKey, strTruthy, ha]
  · simp [checkOnlineStatus]

/-- A reachable session has its latch clear. -/
theorem latch_clear_of_checkOnline (s : SessionState) (h : checkOnlineStatus s = true) :
    s.sessionForceOffline = false := by
  cases hs : s.sessionForceOffline
  · rfl
  · rw [checkOnlineStatus, hs] at h
    simp at h

/-- A reachable session resolves a credential. -/
theorem resolve_of_checkOnline (s : SessionState) (h : checkOnlineStatus s = true) :
    ∃ key, resolveGeminiApiKey s = Except.ok key := by
  rw [checkOnlineStatus, latch_clear_of_checkOnline s h] at h
  simp only [Bool.false_eq_true, if_false] at h
  cases hres : resolveGeminiApiKey s with
  | ok key => exact ⟨key, rfl⟩
  | error e =>
    rw [hres] at h
    simp at h

/-- The current asset function for plating visuals returns the session state
unchanged on every path. -/
theorem generatePlatingVisual_state (s : SessionState)
    (remote : Nat → Outcome (Option String)) (p : NeuralProtocol) :
    (generatePlatingVisual s remote p).1 = s := by
  unfold generatePlatingVisual
  split
  · rfl
  · split
    · rfl
    · split <;> rfl

/-- The current asset function for drink visuals returns the session state
unchanged on every path. -/
theorem generateDrinkVisual_state (s : SessionState)
    (remote : Nat → Outcome (Option String)) (d : String) :
    (generateDrinkVisual s remote d).1 = s := by
  unfold generateDrinkVisual
  split
  · rfl
  · split
    · rfl
    · split <;> rfl

/-- The current asset function for ingredient visuals returns the session
state unchanged on every path. -/
theorem generateIngredientVisual_state (s : SessionState)
    (remote : Nat → Outcome (Option String)) (n : String) :
    (generateIngredientVisual s remote n).1 = s := by
  unfold generateIngredientVisual
  split
  · rfl
  · split
    · rfl
    · split <;> rfl

/-- The current asset function for schematics returns the session state
unchanged on every path. -/
theorem generateSchematic_state (s : SessionState)
    (remote : Nat → Outcome (Option String)) (p : NeuralProtocol) :
    (generateSchematic s remote p).1 = s := by
  unfold generateSchematic
  split
  · rfl
  · split
    · rfl
    · split <;> rfl

/-- The recall audit leaves the session state unchanged when no attempted
outcome carries a quota-classified error. -/
theorem auditRecall_state_of_no_quota (s : SessionState)
    (remote : Nat → Outcome (List RecallHypothesis)) (ing : List Ingredient)
    (h : ∀ j m, remote j = Outcome.err m → isQuotaExceeded m = false) :
    (auditRecall s remote ing).1 = s := by
  unfold auditRecall
  split
  · rfl
  · split
    · rfl
    · have hl := withRetry_latch_of_no_quota 3 remote s.sessionForceOffline 2000 0 h
      cases hres : (withRetry remote s.sessionForceOffline 3 2000 0).result with
      | ok hyps => simp [hres, hl]
      | error e => simp [hres, hl]

/-- When the health check reports unreachable, the recall audit returns the
empty hypothesis list with the state untouched. -/
theorem auditRecall_gateOffline (s : SessionState)
    (remote : Nat → Outcome (List RecallHypothesis)) (ing : List Ingredient)
    (h : checkOnlineStatus s = false) :
    auditRecall s remote ing = (s, []) := by
  unfold auditRecall
  simp [h]

/-- When the wrapped critical call fails, the recall audit swallows the error
and returns the empty hypothesis list. -/
theorem auditRecall_err (s : SessionState)
    (remote : Nat → Outcome (List RecallHypothesis)) (ing : List Ingredient) (m : String)
    (h : (withRetry remote s.sessionForceOffline 3 2000 0).result = Except.error m) :
    (auditRecall s remote ing).2 = [] := by
  unfold auditRecall
  split
  · rfl
  · split
    · rfl
    · cases hres : (withRetry remote s.sessionForceOffline 3 2000 0).result with
      | ok hyps => rw [hres] at h; cases h
      | error e => simp [hres]

/-- A quota error inside the recall audit sets the session failover flag. -/
theorem auditRecall_quota (s : SessionState)
    (remote : Nat → Outcome (List RecallHypothesis)) (ing : List Ingredient) (m : String)
    (hon : checkOnlineStatus s = true) (hr : remote 0 = Outcome.err m)
    (hq : isQuotaExceeded m = true) :
    (auditRecall s remote ing).1.sessionForceOffline = true := by
  obtain ⟨key, hkey⟩ := resolve_of_checkOnline s hon
  have hsfo := latch_clear_of_checkOnline s hon
  unfold auditRecall
  rw [hon]
  simp only [Bool.true_eq_false, if_false]
  rw [hkey, hsfo, withRetry_quota remote 3 2000 0 m hr hq]

/-- The ensemble refinement leaves the session state unchanged when no
attempted outcome carries a quota-classified error. -/
theorem refineManifest_state_of_no_quota (s : SessionState)
    (remote : Nat → Outcome (List Ingredient)) (ing : List Ingredient)
    (h : ∀ j m, remote j = Outcome.err m → isQuotaExceeded m = false) :
    (refineManifestWithEnsemble s remote ing).1 = s := by
  unfold refineManifestWithEnsemble
  split
  · rfl
  · split
    · rfl
    · have hl := withRetry_latch_of_no_quota 3 remote s.sessionForceOffline 2000 0 h
      cases hres : (withRetry remote s.sessionForceOffline 3 2000 0).result with
      | ok refined => simp [hres, hl]
      | error e => simp [hres, hl]

/-- When the health check reports unreachable, the ensemble refinement
returns its input unchanged with the state untouched. -/
theorem refineManifest_gateOffline (s : SessionState)
    (remote : Nat → Outcome (List Ingredient)) (ing : List Ingredient)
    (h : checkOnlineStatus s = false) :
    refineManifestWithEnsemble s remote ing = (s, ing) := by
  unfold refineManifestWithEnsemble
  simp [h]

/-- When the wrapped critical call fails, the ensemble refinement swallows
the error and returns its input list (identity fallback). -/
theorem refineManifest_err (s : SessionState)
    (remote : Nat → Outcome (List Ingredient)) (ing : List Ingredient) (m : String)
    (h : (withRetry remote s.sessionForceOffline 3 2000 0).result = Except.error m) :
    (refineManifestWithEnsemble s remote ing).2 = ing := by
  unfold refineManifestWithEnsemble
  split
  · rfl
  · split
    · rfl
    · cases hres : (withRetry remote s.sessionForceOffline 3 2000 0).result with
      | ok refined => rw [hres] at h; cases h
      | error e => simp [hres]

/-- A quota error inside the ensemble refinement sets the session failover
flag. -/
theorem refineManifest_quota (s : SessionState)
    (remote : Nat → Outcome (List Ingredient)) (ing : List Ingredient) (m : String)
    (hon : checkOnlineStatus s = true) (hr : remote 0 = Outcome.err m)
    (hq : isQuotaExceeded m = true) :
    (refineManifestWithEnsemble s remote ing).1.sessionForceOffline = true := by
  obtain ⟨key, hkey⟩ := resolve_of_checkOnline s hon
  have hsfo := latch_clear_of_checkOnline s hon
  unfold refineManifestWithEnsemble
  rw [hon]
  simp only [Bool.true_eq_false, if_false]
  rw [hkey, hsfo, withRetry_quota remote 3 2000 0 m hr hq]

/-- When the health check reports unreachable, the synthesis stage returns
the offline protocol with the state untouched. -/
theorem synthesizeProtocol_gateOffline (s : SessionState)
    (remote : Nat → Outcome NeuralProtocol) (ing : List Ingredient)
    (prefs : UserPreferences) (h : checkOnlineStatus s = false) :
    synthesizeProtocol s remote ing prefs = (s, synthesizeOfflineProtocol ing prefs) := by
  unfold synthesizeProtocol
  simp [h]

/-- When the wrapped critical call fails, the synthesis stage falls back to
the offline protocol. -/
theorem synthesizeProtocol_err (s : SessionState)
    (remote : Nat → Outcome NeuralProtocol) (ing : List Ingredient)
    (prefs : UserPreferences) (m : String)
    (h : (withRetry remote s.sessionForceOffline 3 2000 0).result = Except.error m) :
    (synthesizeProtocol s remote ing prefs).2 = synthesizeOfflineProtocol ing prefs := by
  unfold synthesizeProtocol
  split
  · rfl
  · split
    · rfl
    · cases hres : (withRetry remote s.sessionForceOffline 3 2000 0).result with
      | ok raw => rw [hres] at h; cases h
      | error e => simp [hres]

/-- A quota error on the synthesis stage sets the session failover flag and
falls back to the offline protocol. -/
theorem synthesizeProtocol_quota (s : SessionState)
    (remote : Nat → Outcome NeuralProtocol) (ing : List Ingredient)
    (prefs : UserPreferences) (m : String)
    (hon : checkOnlineStatus s = true) (hr : remote 0 = Outcome.err m)
    (hq : isQuotaExceeded m = true) :
    synthesizeProtocol s remote ing prefs
      = ({ s with sessionForceOffline := true }, synthesizeOfflineProtocol ing prefs) := by
  obtain ⟨key, hkey⟩ := resolve_of_checkOnline s hon
  have hsfo := latch_clear_of_checkOnline s hon
  unfold synthesizeProtocol
  rw [hon]
  simp only [Bool.true_eq_false, if_false]
  rw [hkey, hsfo, withRetry_quota remote 3 2000 0 m hr hq]

theorem memLookup_nonneg (memory : List (String × ℚ)) (key : String)
    (h : ∀ e ∈ memory, 0 ≤ e.2) : 0 ≤ memLookup memory key := by
  induction memory with
  | nil => simp [memLookup]
  | cons e tl ih =>
    rcases e with ⟨k, v⟩
    by_cases hk : key == k
    · simp [memLookup, List.lookup, hk]
      exact h (k, v) (List.mem_cons_self _ _)
    · simp only [memLookup, List.lookup, hk] at *
      exact ih fun e he => h e (List.mem_cons_of_mem _ he)

theorem perceptionStep_bounds (memory : List (String × ℚ)) (acc : ℚ) (curr : Ingredient)
    (h0 : 0 ≤ curr.confidence) (h1 : curr.confidence ≤ 1)
    (hmem : ∀ e ∈ memory, 0 ≤ e.2) :
    acc ≤ perceptionStep memory acc curr ∧ perceptionStep memory acc curr ≤ acc + 1 := by
  unfold perceptionStep
  have hbias0 : 0 ≤ min (memLookup memory (strLower curr.name) * 0.02) 0.10 := by
    refine le_min ?_ (by norm_num)
    have := memLookup_nonneg memory (strLower curr.name) hmem
    positivity
  have hscore0 : 0 ≤ (if curr.verificationStatus = some VerificationStatus.confirmed
      then max curr.confidence 0.85 else curr.confidence) := by
    split
    · exact le_trans h0 (le_max_left _ _)
    · exact h0
  constructor
  · have hmin : (0 : ℚ) ≤ min ((if curr.verificationStatus = some VerificationStatus.confirmed
        then max curr.confidence 0.85 else curr.confidence)
        + min (memLookup memory (strLower curr.name) * 0.02) 0.10) 1.0 :=
      le_min (add_nonneg hscore0 hbias0) (by norm_num)
    linarith
  · have hmin : min ((if curr.verificationStatus = some VerificationStatus.confirmed
        then max curr.confidence 0.85 else curr.confidence)
        + min (memLookup memory (strLower curr.name) * 0.02) 0.10) 1.0 ≤ (1.0 : ℚ) :=
      min_le_right _ _
    have h10 : (1.0 : ℚ) = 1 := by norm_num
    linarith [hmin]

theorem perceptionFold_bounds (memory : List (String × ℚ))
    (hmem : ∀ e ∈ memory, 0 ≤ e.2) :
    ∀ (inv : List Ingredient) (acc : ℚ),
      (∀ i ∈ inv, 0 ≤ i.confidence ∧ i.confidence ≤ 1) →
      acc ≤ List.foldl (perceptionStep memory) acc inv ∧
        List.foldl (perceptionStep memory) acc inv ≤ acc + inv.length := by
  intro inv
  induction inv with
  | nil => intro acc h; simp
  | cons x xs ih =>
    intro acc h
    have hx := h x (List.mem_cons_self _ _)
    have hxs : ∀ i ∈ xs, 0 ≤ i.confidence ∧ i.confidence ≤ 1 :=
      fun i hi => h i (List.mem_cons_of_mem _ hi)
    have hstep := perceptionStep_bounds memory acc x hx.1 hx.2 hmem
    have hrec := ih (perceptionStep memory acc x) hxs
    rw [List.foldl_cons]
    constructor
    · exact le_trans hstep.1 hrec.1
    · have hlen : ((x :: xs).length : ℚ) = (xs.length : ℚ) + 1 := by
        push_cast [List.length_cons]
        ring
      rw [hlen]
      linarith [hrec.2, hstep.2]

theorem mlConfidenceTerm_bounds (memory : List (String × ℚ)) (inv : List Ingredient)
    (hconf : ∀ i ∈ inv, 0 ≤ i.confidence ∧ i.confidence ≤ 1)
    (hmem : ∀ e ∈ memory, 0 ≤ e.2) :
    ∃ q : ℚ, mlConfidenceTerm memory inv = JSNum.num q ∧ 0 ≤ q ∧ q ≤ 1 := by
  cases inv with
  | nil =>
    refine ⟨1, ?_, by norm_num, le_refl 1⟩
    simp [mlConfidenceTerm, perceptionSum, jsDiv, jsOrElse]
  | cons x xs =>
    have hfold := perceptionFold_bounds memory hmem (x :: xs) 0 hconf
    have hn : (0 : ℚ) < ((x :: xs).length : ℚ) := by
      exact_mod_cast Nat.succ_pos xs.length
    have h0 : 0 ≤ perceptionSum memory (x :: xs) := by
      simpa [perceptionSum] using hfold.1
    have h1 : perceptionSum memory (x :: xs) ≤ ((x :: xs).length : ℚ) := by
      simpa [perceptionSum] using hfold.2
    have havg0 : 0 ≤ perceptionSum memory (x :: xs) / ((x :: xs).length : ℚ) :=
      div_nonneg h0 hn.le
    have havg1 : perceptionSum memory (x :: xs) / ((x :: xs).length : ℚ) ≤ 1 :=
      (div_le_one hn).mpr h1
    have hnz : ((x :: xs).length : ℚ) ≠ 0 := ne_of_gt hn
    by_cases hz : perceptionSum memory (x :: xs) / ((x :: xs).length : ℚ) = 0
    · refine ⟨1, ?_, by norm_num, le_refl 1⟩
      unfold mlConfidenceTerm
      simp only [jsDiv]
      rw [if_neg hnz]
      simp only [jsOrElse]
      rw [if_pos hz]
    · refine ⟨perceptionSum memory (x :: xs) / ((x :: xs).length : ℚ), ?_, havg0, havg1⟩
      unfold mlConfidenceTerm
      simp only [jsDiv]
      rw [if_neg hnz]
      simp only [jsOrElse]
      rw [if_neg hz]

theorem constraintTerm_bounds (inv : List Ingredient) (p : NeuralProtocol)
    (hne : p.ingredients_used ≠ []) :
    ∃ q : ℚ, constraintTerm inv p = JSNum.num q ∧ 0 ≤ q ∧ q ≤ 1 := by
  have hlen : 0 < p.ingredients_used.length := List.length_pos.mpr hne
  have hlenq : (0 : ℚ) < (p.ingredients_used.length : ℚ) := by exact_mod_cast hlen
  set hal := (p.ingredients_used.filter
    (fun ing => !((inv.map (fun i => strLower i.name)).contains (strLower ing)))).length
    with hhal
  have hh : hal ≤ p.ingredients_used.length := List.length_filter_le _ _
  have hhq : (hal : ℚ) ≤ (p.ingredients_used.length : ℚ) := by exact_mod_cast hh
  have hfrac0 : 0 ≤ (hal : ℚ) / (p.ingredients_used.length : ℚ) := by positivity
  have hfrac1 : (hal : ℚ) / (p.ingredients_used.length : ℚ) ≤ 1 :=
    (div_le_one hlenq).mpr hhq
  refine ⟨max 0 (1 - (hal : ℚ) / (p.ingredients_used.length : ℚ)), ?_,
    le_max_left _ _, ?_⟩
  · have hnz : ((p.ingredients_used.length : ℚ)) ≠ 0 := ne_of_gt hlenq
    unfold constraintTerm
    simp only [jsDiv]
    rw [if_neg hnz]
    simp only [jsSub, jsMax]
  · apply max_le (by norm_num)
    linarith

theorem compositeConfidence_bounded_amended :
    (∀ memory : List (String × ℚ), mlConfidenceTerm memory [] = JSNum.num 1) ∧
    ∀ (inv : List Ingredient) (p : NeuralProtocol) (memory : List (String × ℚ)),
      (∀ i ∈ inv, 0 ≤ i.confidence ∧ i.confidence ≤ 1) →
      (∀ e ∈ memory, 0 ≤ e.2) →
      p.ingredients_used ≠ [] →
      ∃ z : ℤ, calculateCompositeConfidence inv p memory = JSNum.num (z : ℚ)
        ∧ 0 ≤ z ∧ z ≤ 100 := by
  constructor
  · intro memory
    simp [mlConfidenceTerm, perceptionSum, jsDiv, jsOrElse]
  · intro inv p memory hconf hmem hne
    obtain ⟨a, ha, ha0, ha1⟩ := mlConfidenceTerm_bounds memory inv hconf hmem
    obtain ⟨c, hc, hc0, hc1⟩ := constraintTerm_bounds inv p hne
    have hb : 0 ≤ geminiCoherenceTerm p ∧ geminiCoherenceTerm p ≤ 1 := by
      unfold geminiCoherenceTerm
      split <;> norm_num
    set b := geminiCoherenceTerm p with hbdef
    refine ⟨⌊(0.5 * a + 0.3 * b + 0.2 * c) * 100 + 1 / 2⌋, ?_, ?_, ?_⟩
    · unfold calculateCompositeConfidence
      rw [ha, hc]
      simp only [jsMul, jsAdd, jsRound]
    · rw [Int.le_floor]
      push_cast
      nlinarith [ha0, hb.1, hc0]
    · have hlt : (⌊(0.5 * a + 0.3 * b + 0.2 * c) * 100 + 1 / 2⌋ : ℤ) < 101 := by
        rw [Int.floor_lt]
        push_cast
        nlinarith [ha1, hb.2, hc1]
      omega

/-- Helper: the health check on an explicitly unlatched state reflects the
network and credential conditions alone. -/
theorem checkOnlineStatus_unlatched (s : SessionState) :
    checkOnlineStatus { s with sessionForceOffline := false }
      = (s.navigatorOnLine && credentialPresent s) := by
  rw [checkOnlineStatus_eq]
  rfl

/-- C1 theorem: every asset-path call of the current service preserves the
session state on every path; but at the concrete failing input the legacy
copy of generatePlatingVisual, routed through withRetry, flips
sessionForceOffline from false to true and makes checkOnlineStatus false. -/
theorem assetPath_isolation_and_legacy_quota_latch :
    (∀ (s : SessionState) (remote : Nat → Outcome (Option String)) (p : NeuralProtocol),
        (generatePlatingVisual s remote p).1 = s) ∧
    (∀ (s : SessionState) (remote : Nat → Outcome (Option String)) (d : String),
        (generateDrinkVisual s remote d).1 = s) ∧
    (∀ (s : SessionState) (remote : Nat → Outcome (Option String)) (n : String),
        (generateIngredientVisual s remote n).1 = s) ∧
    (∀ (s : SessionState) (remote : Nat → Outcome (Option String)) (p : NeuralProtocol),
        (generateSchematic s remote p).1 = s) ∧
    sessionStart.sessionForceOffline = false ∧
    (Legacy.generatePlatingVisual sessionStart quotaImageRemote
        protoFive).1.sessionForceOffline = true ∧
    checkOnlineStatus
        (Legacy.generatePlatingVisual sessionStart quotaImageRemote protoFive).1 = false := by
  refine ⟨generatePlatingVisual_state, generateDrinkVisual_state,
    generateIngredientVisual_state, generateSchematic_state, rfl, ?_, ?_⟩ <;> decide

/-- C2 theorem: the critical wrapper fails fast with no attempt when latched;
sets the latch, does not retry and propagates on a quota error; sleeps the
current delay, doubles it, decrements the budget and retries on a transient
non-quota error; and propagates immediately on any other error. -/
theorem withRetry_implements_critical_policy :
    (∀ (T : Type) (fn : Nat → Outcome T) (retries : Nat) (delay : ℚ) (k : Nat),
        withRetry fn true retries delay k
          = ⟨true, Except.error "SESSION_OFFLINE_FAILOVER", 0, []⟩) ∧
    (∀ (T : Type) (fn : Nat → Outcome T) (retries : Nat) (delay : ℚ) (k : Nat) (m : String),
        fn k = Outcome.err m → isQuotaExceeded m = true →
        withRetry fn false retries delay k = ⟨true, Except.error m, 1, []⟩) ∧
    (∀ (T : Type) (fn : Nat → Outcome T) (r : Nat) (delay : ℚ) (k : Nat) (m : String),
        fn k = Outcome.err m → isQuotaExceeded m = false → isTransient m = true →
        withRetry fn false (r + 1) delay k
          = ⟨(withRetry fn false r (delay * 2) (k + 1)).latch,
             (withRetry fn false r (delay * 2) (k + 1)).result,
             (withRetry fn false r (delay * 2) (k + 1)).calls + 1,
             delay :: (withRetry fn false r (delay * 2) (k + 1)).sleeps⟩) ∧
    (∀ (T : Type) (fn : Nat → Outcome T) (retries : Nat) (delay : ℚ) (k : Nat) (m : String),
        fn k = Outcome.err m → isTransient m = false →
        withRetry fn false retries delay k = ⟨false, Except.error m, 1, []⟩) :=
  ⟨fun T => withRetry_latched,
   fun T => withRetry_quota,
   fun T => withRetry_transientStep,
   fun T => withRetry_permanent⟩

/-- Witness for the C2 theorem at concrete runs: a quota error, a transient
error, a permanent error, and a latched session. -/
theorem withRetry_implements_critical_policy_witness :
    withRetry (fun _ => Outcome.ok (0 : Nat)) true 3 2000 0
      = ⟨true, Except.error "SESSION_OFFLINE_FAILOVER", 0, []⟩ ∧
    withRetry (fun _ => Outcome.err "429 quota" : Nat → Outcome Nat) false 3 2000 0
      = ⟨true, Except.error "429 quota", 1, []⟩ ∧
    withRetry (fun _ => Outcome.err "fetch failed" : Nat → Outcome Nat) false 3 2000 0
      = ⟨(withRetry (fun _ => Outcome.err "fetch failed" : Nat → Outcome Nat)
            false 2 (2000 * 2) 1).latch,
         (withRetry (fun _ => Outcome.err "fetch failed" : Nat → Outcome Nat)
            false 2 (2000 * 2) 1).result,
         (withRetry (fun _ => Outcome.err "fetch failed" : Nat → Outcome Nat)
            false 2 (2000 * 2) 1).calls + 1,
         2000 :: (withRetry (fun _ => Outcome.err "fetch failed" : Nat → Outcome Nat)
            false 2 (2000 * 2) 1).sleeps⟩ ∧
    withRetry (fun _ => Outcome.err "403 denied" : Nat → Outcome Nat) false 3 2000 0
      = ⟨false, Except.error "403 denied", 1, []⟩ :=
  ⟨withRetry_implements_critical_policy.1 Nat (fun _ => Outcome.ok 0) 3 2000 0,
   withRetry_implements_critical_policy.2.1 Nat (fun _ => Outcome.err "429 quota")
     3 2000 0 "429 quota" rfl (by decide),
   withRetry_implements_critical_policy.2.2.1 Nat (fun _ => Outcome.err "fetch failed")
     2 2000 0 "fetch failed" rfl (by decide) (by decide),
   withRetry_implements_critical_policy.2.2.2 Nat (fun _ => Outcome.err "403 denied")
     3 2000 0 "403 denied" rfl (by decide)⟩

/-- C3 counterexample: at a concrete online unlatched session, a quota error
inside auditRecall (and inside refineManifestWithEnsemble) sets
sessionForceOffline, so the claim that these stages never touch the latch is
false on the code. -/
theorem auditRecall_quota_sets_latch_cex :
    sessionStart.sessionForceOffline = false ∧
    (auditRecall sessionStart quotaHypRemote [tomatoIngredient]).1.sessionForceOffline
      = true ∧
    checkOnlineStatus (auditRecall sessionStart quotaHypRemote [tomatoIngredient]).1
      = false ∧
    (refineManifestWithEnsemble sessionStart quotaIngRemote
        [tomatoIngredient]).1.sessionForceOffline = true := by
  refine ⟨rfl, ?_, ?_, ?_⟩ <;> decide

/-- C3 theorem (amended): auditRecall and refineManifestWithEnsemble leave
the session state unchanged whenever no attempted outcome is quota-classified,
but both route their remote call through the latch-setting critical wrapper,
so a quota-exceeded failure does set sessionForceOffline. -/
theorem optional_stages_latch_discipline_amended :
    (∀ (s : SessionState) (remoteH : Nat → Outcome (List RecallHypothesis))
        (ing : List Ingredient),
        (∀ j m, remoteH j = Outcome.err m → isQuotaExceeded m = false) →
        (auditRecall s remoteH ing).1 = s) ∧
    (∀ (s : SessionState) (remoteR : Nat → Outcome (List Ingredient))
        (ing : List Ingredient),
        (∀ j m, remoteR j = Outcome.err m → isQuotaExceeded m = false) →
        (refineManifestWithEnsemble s remoteR ing).1 = s) ∧
    (∀ (s : SessionState) (remoteH : Nat → Outcome (List RecallHypothesis))
        (ing : List Ingredient) (m : String),
        checkOnlineStatus s = true → remoteH 0 = Outcome.err m →
        isQuotaExceeded m = true →
        (auditRecall s remoteH ing).1.sessionForceOffline = true) ∧
    (∀ (s : SessionState) (remoteR : Nat → Outcome (List Ingredient))
        (ing : List Ingredient) (m : String),
        checkOnlineStatus s = true → remoteR 0 = Outcome.err m →
        isQuotaExceeded m = true →
        (refineManifestWithEnsemble s remoteR ing).1.sessionForceOffline = true) :=
  ⟨auditRecall_state_of_no_quota, refineManifest_state_of_no_quota,
   auditRecall_quota, refineManifest_quota⟩

/-- Witness for the amended C3 theorem at concrete runs: server errors leave
the state unchanged, a quota error sets the latch. -/
theorem optional_stages_latch_discipline_amended_witness :
    (auditRecall sessionStart err500HypRemote [tomatoIngredient]).1 = sessionStart ∧
    (refineManifestWithEnsemble sessionStart err500IngRemote [tomatoIngredient]).1
      = sessionStart ∧
    (auditRecall sessionStart quotaHypRemote
        [tomatoIngredient]).1.sessionForceOffline = true :=
  ⟨optional_stages_latch_discipline_amended.1 sessionStart err500HypRemote
      [tomatoIngredient] (fun j m h => by injection h with h1; subst h1; decide),
   optional_stages_latch_discipline_amended.2.1 sessionStart err500IngRemote
      [tomatoIngredient] (fun j m h => by injection h with h1; subst h1; decide),
   optional_stages_latch_discipline_amended.2.2.1 sessionStart quotaHypRemote
      [tomatoIngredient] "429 RESOURCE_EXHAUSTED: quota exceeded" (by decide) rfl (by decide)⟩

/-- C4 counterexample: at a protocol whose referenced-ingredient list is
empty, the scoring function returns NaN (the 0 / 0 of the constraint term
propagates through Math.max and Math.round), not an integer in the range and
not a constraint term of 1.0. -/
theorem compositeConfidence_empty_refs_nan_cex :
    calculateCompositeConfidence [] protoNoRefs [] = JSNum.nan := by
  simp [calculateCompositeConfidence, mlConfidenceTerm, perceptionSum, constraintTerm,
    geminiCoherenceTerm, protoNoRefs, jsAdd, jsMul, jsSub, jsDiv, jsMax, jsOrElse, jsRound]

/-- Witness for the amended C4 theorem at a concrete valid input. -/
theorem compositeConfidence_bounded_amended_witness :
    ∃ z : ℤ, calculateCompositeConfidence [tomatoIngredient] protoFive []
      = JSNum.num (z : ℚ) ∧ 0 ≤ z ∧ z ≤ 100 :=
  compositeConfidence_bounded_amended.2 [tomatoIngredient] protoFive []
    (by
      intro i hi
      rw [List.mem_singleton] at hi
      subst hi
      constructor <;> norm_num [tomatoIngredient])
    (by intro e he; exact absurd he (List.not_mem_nil e))
    (by decide)

/-- C5 theorem: the coherence term is 1.0 for more than three instruction
steps and 0.7 otherwise, and the composite score at the scenario-A input (one
unconfirmed tomato at confidence 0.6, five instructions referencing only
tomato, no memory bias) is exactly 80; with three instructions it is 71. -/
theorem compositeConfidence_formula_scenarioA :
    geminiCoherenceTerm protoFive = 1 ∧
    geminiCoherenceTerm protoThree = 0.7 ∧
    calculateCompositeConfidence [tomatoIngredient] protoFive [] = JSNum.num 80 ∧
    calculateCompositeConfidence [tomatoIngredient] protoThree [] = JSNum.num 71 := by
  have hs : perceptionSum [] [tomatoIngredient] = 3 / 5 := by
    norm_num [perceptionSum, perceptionStep, memLookup, tomatoIngredient, min_def, vstatus_ne]
  have hml : mlConfidenceTerm [] [tomatoIngredient] = JSNum.num (3 / 5) := by
    norm_num [mlConfidenceTerm, hs, jsDiv, jsOrElse]
  have hco5 : geminiCoherenceTerm protoFive = 1 := by
    norm_num [geminiCoherenceTerm, protoFive]
  have hco3 : geminiCoherenceTerm protoThree = 0.7 := by
    norm_num [geminiCoherenceTerm, protoThree]
  refine ⟨hco5, hco3, ?_, ?_⟩
  · have hcon : constraintTerm [tomatoIngredient] protoFive = JSNum.num 1 := by
      norm_num [constraintTerm, protoFive, tomatoIngredient, jsMax, jsSub, jsDiv, max_def]
    rw [calculateCompositeConfidence, hml, hcon, hco5]
    norm_num [jsAdd, jsMul, jsRound]
  · have hcon : constraintTerm [tomatoIngredient] protoThree = JSNum.num 1 := by
      norm_num [constraintTerm, protoThree, tomatoIngredient, jsMax, jsSub, jsDiv, max_def]
    rw [calculateCompositeConfidence, hml, hcon, hco3]
    norm_num [jsAdd, jsMul, jsRound]

/-- C6 theorem: the synthesis stage converts every failure of its critical
remote call into the offline protocol (which carries isOffline = true); after
a quota failure the health check reports false, and after resetHandshake it
again reflects network and credential state alone. -/
theorem synthesizeProtocol_deep_fallback :
    (∀ (s : SessionState) (remote : Nat → Outcome NeuralProtocol)
        (ing : List Ingredient) (prefs : UserPreferences),
        checkOnlineStatus s = false →
        synthesizeProtocol s remote ing prefs = (s, synthesizeOfflineProtocol ing prefs)) ∧
    (∀ (s : SessionState) (remote : Nat → Outcome NeuralProtocol)
        (ing : List Ingredient) (prefs : UserPreferences) (m : String),
        (withRetry remote s.sessionForceOffline 3 2000 0).result = Except.error m →
        (synthesizeProtocol s remote ing prefs).2 = synthesizeOfflineProtocol ing prefs) ∧
    (∀ (ing : List Ingredient) (prefs : UserPreferences),
        (synthesizeOfflineProtocol ing prefs).isOffline = true) ∧
    (∀ (s : SessionState) (remote : Nat → Outcome NeuralProtocol)
        (ing : List Ingredient) (prefs : UserPreferences) (m : String),
        checkOnlineStatus s = true → remote 0 = Outcome.err m → isQuotaExceeded m = true →
        (synthesizeProtocol s remote ing prefs).2 = synthesizeOfflineProtocol ing prefs ∧
        checkOnlineStatus (synthesizeProtocol s remote ing prefs).1 = false ∧
        checkOnlineStatus (resetHandshake (synthesizeProtocol s remote ing prefs).1)
          = (s.navigatorOnLine && credentialPresent s)) := by
  refine ⟨synthesizeProtocol_gateOffline, synthesizeProtocol_err,
    fun ing prefs => rfl, ?_⟩
  intro s remote ing prefs m hon hr hq
  rw [synthesizeProtocol_quota s remote ing prefs m hon hr hq]
  exact ⟨rfl, rfl, checkOnlineStatus_unlatched s⟩

/-- Witness for the C6 theorem at a concrete quota run. -/
theorem synthesizeProtocol_deep_fallback_witness :
    (synthesizeProtocol sessionStart quotaProtocolRemote [tomatoIngredient] defaultPrefs).2
      = synthesizeOfflineProtocol [tomatoIngredient] defaultPrefs ∧
    checkOnlineStatus (synthesizeProtocol sessionStart quotaProtocolRemote
      [tomatoIngredient] defaultPrefs).1 = false ∧
    checkOnlineStatus (resetHandshake (synthesizeProtocol sessionStart quotaProtocolRemote
      [tomatoIngredient] defaultPrefs).1)
      = (sessionStart.navigatorOnLine && credentialPresent sessionStart) :=
  synthesizeProtocol_deep_fallback.2.2.2 sessionStart quotaProtocolRemote
    [tomatoIngredient] defaultPrefs "429 RESOURCE_EXHAUSTED: quota exceeded"
    (by decide) rfl (by decide)

/-- C7 theorem: the health check equals the conjunction of a clear latch,
network reachability, and a resolving credential; a pure function of the
session state. -/
theorem checkOnlineStatus_pure_conjunction :
    ∀ s : SessionState,
      checkOnlineStatus s
        = (!s.sessionForceOffline && (s.navigatorOnLine && credentialPresent s)) :=
  checkOnlineStatus_eq

/-- C8 theorem: when unreachable, auditRecall returns the empty list and
refineManifestWithEnsemble returns its input unchanged, both with the state
untouched; when the wrapped remote call fails, each swallows the error and
returns its fallback value. -/
theorem optional_stages_degrade :
    (∀ (s : SessionState) (remoteH : Nat → Outcome (List RecallHypothesis))
        (remoteR : Nat → Outcome (List Ingredient)) (ing : List Ingredient),
        checkOnlineStatus s = false →
        auditRecall s remoteH ing = (s, []) ∧
        refineManifestWithEnsemble s remoteR ing = (s, ing)) ∧
    (∀ (s : SessionState) (remoteH : Nat → Outcome (List RecallHypothesis))
        (ing : List Ingredient) (m : String),
        (withRetry remoteH s.sessionForceOffline 3 2000 0).result = Except.error m →
        (auditRecall s remoteH ing).2 = []) ∧
    (∀ (s : SessionState) (remoteR : Nat → Outcome (List Ingredient))
        (ing : List Ingredient) (m : String),
        (withRetry remoteR s.sessionForceOffline 3 2000 0).result = Except.error m →
        (refineManifestWithEnsemble s remoteR ing).2 = ing) :=
  ⟨fun s rH rR ing h =>
     ⟨auditRecall_gateOffline s rH ing h, refineManifest_gateOffline s rR ing h⟩,
   auditRecall_err, refineManifest_err⟩

/-- Witness for the C8 theorem at a concrete unreachable session. -/
theorem optional_stages_degrade_witness :
    auditRecall sessionOffline quotaHypRemote [tomatoIngredient] = (sessionOffline, []) ∧
    refineManifestWithEnsemble sessionOffline quotaIngRemote [tomatoIngredient]
      = (sessionOffline, [tomatoIngredient]) :=
  optional_stages_degrade.1 sessionOffline quotaHypRemote quotaIngRemote
    [tomatoIngredient] (by decide)

/-- C9 theorem: resetting with the latch already clear is a strict no-op on
the whole session state; resetting always clears the latch, is idempotent,
and afterwards the health check reflects network and credential state
alone. -/
theorem resetHandshake_idempotent :
    ∀ s : SessionState,
      (s.sessionForceOffline = false → resetHandshake s = s) ∧
      (resetHandshake s).sessionForceOffline = false ∧
      resetHandshake (resetHandshake s) = resetHandshake s ∧
      checkOnlineStatus (resetHandshake s)
        = (s.navigatorOnLine && credentialPresent s) := by
  intro s
  refine ⟨?_, rfl, rfl, checkOnlineStatus_unlatched s⟩
  intro h
  rcases s with ⟨sfo, nav, e, st⟩
  cases sfo
  · rfl
  · cases h

/-- Witness for the C9 theorem at concrete unlatched and latched sessions. -/
theorem resetHandshake_idempotent_witness :
    resetHandshake sessionStart = sessionStart ∧
    checkOnlineStatus (resetHandshake sessionLatched)
      = (sessionLatched.navigatorOnLine && credentialPresent sessionLatched) :=
  ⟨(resetHandshake_idempotent sessionStart).1 rfl,
   (resetHandshake_idempotent sessionLatched).2.2.2⟩

/-- C10 theorem: for the single unconfirmed zero-confidence ingredient the
source perception term is 1 where the plain average is 0, because the
`|| 1` fallback also replaces a computed average of 0; the composite is 100
where the averaging formula prescribes 50. -/
theorem perception_zero_average_replaced :
    mlConfidenceTerm [] [zeroIngredient] = JSNum.num 1 ∧
    mlConfidenceTermAveraged [] [zeroIngredient] = 0 ∧
    calculateCompositeConfidence [zeroIngredient] protoFiveZ [] = JSNum.num 100 ∧
    calculateCompositeConfidenceAveraged [zeroIngredient] protoFiveZ []
      = JSNum.num 50 := by
  have hs : perceptionSum [] [zeroIngredient] = 0 := by
    norm_num [perceptionSum, perceptionStep, memLookup, zeroIngredient, min_def, vstatus_ne]
  have hml : mlConfidenceTerm [] [zeroIngredient] = JSNum.num 1 := by
    norm_num [mlConfidenceTerm, hs, jsDiv, jsOrElse]
  have hav : mlConfidenceTermAveraged [] [zeroIngredient] = 0 := by
    norm_num [mlConfidenceTermAveraged, hs]
  have hcon : constraintTerm [zeroIngredient] protoFiveZ = JSNum.num 1 := by
    norm_num [constraintTerm, protoFiveZ, zeroIngredient, jsMax, jsSub, jsDiv, max_def]
  have hco : geminiCoherenceTerm protoFiveZ = 1 := by
    norm_num [geminiCoherenceTerm, protoFiveZ]
  refine ⟨hml, hav, ?_, ?_⟩
  · rw [calculateCompositeConfidence, hml, hcon, hco]
    norm_num [jsAdd, jsMul, jsRound]
  · rw [calculateCompositeConfidenceAveraged, hav, hcon, hco]
    norm_num [jsAdd, jsMul, jsRound]
